import Mathlib

/-!
Shallow embedding of the `durable-apis` library (src/unnamed/part_000): a
Cloudflare Durable Objects RPC layer.  The client side wraps a namespace's
`get` so that arbitrary method calls on the returned stub become `POST
https://durable/<method>` requests with a JSON-array body; the server side
(`createDurable`) routes such requests to the wrapped object's methods and
encodes the results; a retry policy re-issues calls that fail with one of a
fixed set of transient error phrases.

Platform primitives (JSON.stringify/JSON.parse, Request/Response objects,
the itty-router path matcher, the Durable Object runtime's id generators)
are modelled by their interface contracts: a body that was produced by
serializing a JSON value parses back to that value; the router extracts the
path segment after the base URL; `newUniqueId` yields a fresh identity on
every call.
-/

namespace DurableApis

/-- JSON values: the serializable arguments and results of RPC calls.
Numbers are modelled as integers (the claims only use integer values). -/
inductive Json where
  | null
  | bool (b : Bool)
  | num (n : Int)
  | str (s : String)
  | arr (elems : List Json)
  | obj (fields : List (String × Json))

/-- The body of a transport Request/Response.  JS exposes bodies through
`text()` (which can reject) and `JSON.parse` (which can throw); we model the
three observable situations directly: a body whose text parses as the JSON
value `v`, a body whose text `s` is not valid JSON, and a body whose text
cannot be read at all. -/
inductive Body where
  | jsonBody (v : Json)
  | textBody (s : String)
  | unreadable

/-- Header list; `Headers.get/set/delete` are modelled on an association
list.  All header names used by the library are written with one fixed
capitalization, so exact string matching is faithful here. -/
abbrev HeaderList := List (String × String)

def getHeader (hs : HeaderList) (name : String) : Option String :=
  (hs.find? (fun kv => kv.1 == name)).map (fun kv => kv.2)

/-- `headers.set(name, value)`: replace an existing entry, else append. -/
def setHeader (hs : HeaderList) (name value : String) : HeaderList :=
  if (hs.find? (fun kv => kv.1 == name)).isSome then
    hs.map (fun kv => if kv.1 == name then (name, value) else kv)
  else
    hs ++ [(name, value)]

/-- `headers.delete(name)`. -/
def deleteHeader (hs : HeaderList) (name : String) : HeaderList :=
  hs.filter (fun kv => kv.1 != name)

/-- A transport Response: status, headers, body.  (statusText and other
fields are not consulted by the library.) -/
structure Resp where
  status : Nat
  headers : HeaderList
  body : Body

/-- A transport Request as built and consumed by the library. -/
structure Req where
  url : String
  method : String
  headers : HeaderList
  body : Body

/-- `const URL = 'https://durable/'` — the reserved internal authority. -/
def urlBase : String := "https://durable/"

/-- `const maxRetries = 10`. -/
def maxRetries : Nat := 10

/-- `pat` matches at the front of `cs` (character-list version of a
string-literal match). -/
def charsLead : List Char → List Char → Bool
  | [], _ => true
  | _ :: _, [] => false
  | c :: cs, d :: ds => c == d && charsLead cs ds

/-- `pat` occurs somewhere inside `cs`. -/
def charsHave (pat : List Char) : List Char → Bool
  | [] => charsLead pat []
  | d :: ds => charsLead pat (d :: ds) || charsHave pat ds

/-- `s` contains `pat` as a (contiguous) substring: the semantics of testing
a regular expression that is an alternation of literal phrases. -/
def strHas (s pat : String) : Bool := charsHave pat.toList s.toList

/-- `s` starts with `pat`: the semantics of `String.prototype.startsWith`. -/
def strLead (s pat : String) : Bool := charsLead pat.toList s.toList

/-- The four known-transient phrases of the `retryOn` regular expression
(an alternation of literal phrases, none containing a metacharacter), tested
against the stringified error `err + ''`. -/
def retryOnTest (err : String) : Bool :=
  strHas err "Network connection lost" ||
  strHas err "Cannot resolve Durable Object due to transient issue on remote node" ||
  strHas err "Durable Object reset because its code was updated" ||
  strHas err "The Durable Object\x27s code has been updated"

/-- `shouldRetry(err, retries)`: false once `retries` exceeds `maxRetries`,
otherwise the transient-phrase test on the stringified error. -/
def shouldRetry (err : String) (retries : Nat) : Bool :=
  if retries > maxRetries then false else retryOnTest err

/-! ## Server side: `createDurable` -/

/-- What an invoked member of the wrapped object can do: return a JSON
value, return a transport Response object, or throw an error carrying an
optional `status` field and a message (`StatusError` has a status;
`err.status || 500` treats an absent/zero status as 500). -/
inductive MethodResult where
  | value (v : Json)
  | response (r : Resp)
  | thrown (status : Option Nat) (msg : String)

/-- The object produced by the user's `DurableInit`: its callable members
keyed by name (taking the decoded JSON argument array), and — separately,
because the dispatcher special-cases it — its `fetch` member, which is
invoked with the raw incoming request. -/
structure ApiObject where
  methods : String → Option (List Json → MethodResult)
  fetchImpl : Option (Req → Resp)

/-- itty-router-extras `json(data)`: a 200 response whose body is the
JSON-serialized value and whose Content-Type declares JSON. -/
def jsonResponse (v : Json) : Resp :=
  { status := 200
    headers := [("Content-Type", "application/json")]
    body := Body.jsonBody v }

/-- itty-router-extras `error(status, msg)`: a response with the given
transport status and JSON body carrying the same status and message. -/
def errorResponse (status : Nat) (msg : String) : Resp :=
  { status := status
    headers := [("Content-Type", "application/json")]
    body := Body.jsonBody (Json.obj [("status", Json.num status), ("error", Json.str msg)]) }

/-- `createResponse(data)`: `try { return json(data) } catch { return new
Response(data) }`.  Every value of our `Json` type is serializable, so the
catch branch is unreachable in the model. -/
def createResponse (v : Json) : Resp := jsonResponse v

/-- The itty-router route pattern `POST /:prop` against the base authority:
the matched parameter is the path segment after `https://durable/`.  (The
router is an out-of-scope collaborator; this is its contract for the URLs
the stub builds: drop the characters of the base and keep the rest.) -/
def routerProp (r : Req) : String :=
  String.mk (r.url.toList.drop urlBase.toList.length)

/-- The `withContent` middleware's contract: the request content is the
JSON-decoded body.  Every request built by the stub carries a JSON array
body; other bodies decode to an empty argument list in the model. -/
def contentOf : Body → List Json
  | Body.jsonBody (Json.arr elems) => elems
  | _ => []

/-- Look up and invoke the member `prop`: `none` models `typeof api[prop]
!== 'function'`; `prop === 'fetch'` is invoked with the raw request,
every other member with the decoded arguments spread positionally. -/
def invokeMember (api : ApiObject) (req : Req) (prop : String) (content : List Json) :
    Option MethodResult :=
  if prop = "fetch" then
    api.fetchImpl.map (fun f => MethodResult.response (f req))
  else
    (api.methods prop).map (fun f => f content)

/-- The `POST /:prop` handler of `createDurable` together with the
`.catch(err => error(err.status || 500, err.message))` wrapper: a missing
or non-callable member throws `StatusError(500, 'Durable Object does not
contain method <prop>()')`, a Response result gets the `X-Direct-Response`
marker, any other result is JSON-encoded, and thrown errors become error
responses. -/
def routerHandle (api : ApiObject) (req : Req) : Resp :=
  let prop := routerProp req
  let content := contentOf req.body
  match invokeMember api req prop content with
  | none =>
      errorResponse 500 ("Durable Object does not contain method " ++ prop ++ "()")
  | some (MethodResult.thrown status msg) =>
      errorResponse (status.getD 500) msg
  | some (MethodResult.response r) =>
      { r with headers := setHeader r.headers "X-Direct-Response" "true" }
  | some (MethodResult.value v) =>
      createResponse v

/-- The `fetch` function returned by `createDurable`: requests whose URL
starts with the reserved authority go to the router; everything else goes
to the object's own `fetch` member, or to a fixed 500 error response when
none is defined (`api.fetch?.(request) || error(500, ...)`). -/
def durableFetch (api : ApiObject) (req : Req) : Resp :=
  if strLead req.url urlBase then
    routerHandle api req
  else
    match api.fetchImpl with
    | some f => f req
    | none => errorResponse 500 "Durable Object cannot handle request"

/-! ## Client side: request building and response decoding -/

/-- `createRequest(prop, content)`: `POST https://durable/<prop>` with a
JSON content type and the JSON-serialized argument array as body. -/
def createRequest (prop : String) (content : List Json) : Req :=
  { url := urlBase ++ prop
    method := "POST"
    headers := [("Content-Type", "application/json")]
    body := Body.jsonBody (Json.arr content) }

/-- What the client's decode step hands back to the caller: a parsed JSON
value, the raw body text, or a transport Response object. -/
inductive Decoded where
  | value (v : Json)
  | text (s : String)
  | raw (r : Resp)

/-- `transformResponse`.  On the passthrough branch the code builds `new
Response(response.body, { ...response, headers })`.  Spreading a Response
copies only its own enumerable properties, and per Web IDL a Response's
attributes (status, headers, ...) are accessors on the prototype, so the
spread contributes nothing: the init is just `{ headers }` and the rebuilt
response takes the default status 200.  On the other branch the body is
read as text and JSON-parsed, degrading to the raw text and then to the
response object itself. -/
def transformResponse (r : Resp) : Decoded :=
  if getHeader r.headers "X-Direct-Response" = some "true" then
    Decoded.raw
      { status := 200
        headers := deleteHeader r.headers "X-Direct-Response"
        body := r.body }
  else
    match r.body with
    | Body.jsonBody v => Decoded.value v
    | Body.textBody s => Decoded.text s
    | Body.unreadable => Decoded.raw r

/-! ## Client side: `stubFetch` and the retry loop -/

/-- Outcome of one `obj.fetch(...)` transport send: the promise resolves
with a Response or rejects with an error (kept as its string form, which is
all `shouldRetry` consults). -/
inductive FetchOutcome where
  | ok (r : Resp)
  | err (msg : String)

/-- Final outcome of a stub method call. -/
inductive CallOutcome where
  | resolved (d : Decoded)
  | rejected (msg : String)

/-- Observable trace of one logical stub call: its outcome, how many
transport sends were made, and the `setTimeout` delays applied (in order,
in milliseconds). -/
structure CallTrace where
  outcome : CallOutcome
  attempts : Nat
  delays : List Nat

/-- The recursion of `stubFetch`: attempt the send; on resolution decode
via `transformResponse`; on rejection consult `shouldRetry(err, retries)`
and either reject or wait `2^retries * 10` ms and recurse with `retries +
1`.  The transport's behavior is a function of the attempt index (attempt
`k` runs with `retries = k`), which models an environment that may fail
some attempts and serve others.  The JS recursion is bounded because
`shouldRetry` is false for `retries > maxRetries`; the fuel parameter makes
that bound structural, and `stubFetchAux_fuel` below shows any fuel past
the bound computes the same trace. -/
def stubFetchAux (send : Nat → FetchOutcome) : Nat → Nat → CallTrace
  | 0, _ => { outcome := CallOutcome.rejected "", attempts := 0, delays := [] }
  | fuel + 1, retries =>
    match send retries with
    | FetchOutcome.ok r =>
        { outcome := CallOutcome.resolved (transformResponse r), attempts := 1, delays := [] }
    | FetchOutcome.err msg =>
        if shouldRetry msg retries then
          let rest := stubFetchAux send fuel (retries + 1)
          { outcome := rest.outcome
            attempts := rest.attempts + 1
            delays := (2 ^ retries * 10) :: rest.delays }
        else
          { outcome := CallOutcome.rejected msg, attempts := 1, delays := [] }

/-- `stubFetch(obj, prop, content)` starts at `retries = 0`; 13 units of
fuel cover the at most 12 sends the ceiling permits. -/
def stubFetchTrace (send : Nat → FetchOutcome) : CallTrace :=
  stubFetchAux send 13 0

/-- End-to-end call of method `prop` with arguments `args` against a
durable object built by `createDurable` over `api`, with a transport that
delivers every request (retry-free environment): the stub proxy turns the
member access into `stubFetch`, which sends `createRequest prop args` to
the object's `fetch` and decodes the response. -/
def clientCall (api : ApiObject) (prop : String) (args : List Json) : CallTrace :=
  stubFetchTrace (fun _ => FetchOutcome.ok (durableFetch api (createRequest prop args)))

/-! ## Concrete target objects used by the spec's testable properties -/

/-- The spec's example method `add(a, b) => a + b` on numeric arguments
(the shape the claims exercise); other argument shapes are immaterial to
the claims and return `null`. -/
def addImpl : List Json → MethodResult
  | [Json.num a, Json.num b] => MethodResult.value (Json.num (a + b))
  | _ => MethodResult.value Json.null

/-- A target object whose API has exactly the method `add` and no `fetch`
member. -/
def addApi : ApiObject where
  methods := fun p => if p = "add" then some addImpl else none
  fetchImpl := none

/-- A `DurableObjectId`, tagged by the namespace primitive that produced
it: `idFromString` on a canonical 64-character id, `idFromName` on a name,
or `newUniqueId`.  The runtime guarantees the three constructors produce
distinct identities and that successive `newUniqueId` calls are fresh; the
constructor tags plus the freshness counter below model exactly that
contract. -/
inductive DOId where
  | fromString (s : String)
  | fromName (s : String)
  | unique (n : Nat)
deriving Repr, DecidableEq

/-- The freshness state of `newUniqueId`: each call returns an identity
never returned before (modelled by a counter the runtime advances). -/
structure NamespaceState where
  counter : Nat
deriving Repr, DecidableEq

/-- The `id` argument of the wrapped `get(id?, options?)`: absent, a
string, or an already-constructed `DurableObjectId`. -/
inductive IdArg where
  | absent
  | str (s : String)
  | objId (i : DOId)

/-- JavaScript truthiness of the `id` argument, as tested by `if (!id)`:
`undefined` is falsy, and so is the empty string; a `DurableObjectId`
object is always truthy. -/
def idArgTruthy : IdArg → Bool
  | IdArg.absent => false
  | IdArg.str s => !s.isEmpty
  | IdArg.objId _ => true

/-- The id-resolution branch of the function returned by `getDurableGet`:
`if (!id) id = namespace.newUniqueId(); else if (typeof id === 'string')
id = id.length === 64 ? namespace.idFromString(id) :
namespace.idFromName(id);`.  Returns the resolved identity and the
namespace state after the call (advanced only when `newUniqueId` ran). -/
def resolveId (st : NamespaceState) (arg : IdArg) : DOId × NamespaceState :=
  if !idArgTruthy arg then
    (DOId.unique st.counter, { counter := st.counter + 1 })
  else
    match arg with
    | IdArg.str s =>
        (if s.length = 64 then DOId.fromString s else DOId.fromName s, st)
    | IdArg.objId i => (i, st)
    | IdArg.absent => (DOId.unique st.counter, { counter := st.counter + 1 })

/-! ## Namespace extension: `extendEnv` / `extendNamespace` -/

/-- The function object stored in a namespace's `get` slot: the runtime's
native `get`, or that function wrapped by `getDurableGet` (which captures
the previous `get` in its closure). -/
inductive GetFn where
  | native
  | wrapped (inner : GetFn)
deriving Repr, DecidableEq

/-- The mutable `get` slot of a `DurableObjectNamespace`, together with the
`extended` flag that `extendNamespace` stashes on the replacement function
object.  The runtime's native `get` carries no flag (reading it yields
`undefined`, i.e. `false`). -/
structure NamespaceGetSlot where
  fn : GetFn
  extended : Bool
deriving Repr, DecidableEq

/-- `extendNamespace`: when the current `get` is not marked `extended`,
replace it with `getDurableGet(namespace)` — a wrapper capturing the
current `get` — and mark the replacement; otherwise leave the namespace
untouched. -/
def extendNamespace (slot : NamespaceGetSlot) : NamespaceGetSlot :=
  if !slot.extended then
    { fn := GetFn.wrapped slot.fn, extended := true }
  else
    slot

/-- A binding of the `env` object, as `extendEnv` sees it: a Durable
Object namespace (something with an `idFromName` function, carrying a `get`
slot) or any other value. -/
inductive EnvValue where
  | namespaceVal (slot : NamespaceGetSlot)
  | otherVal
deriving Repr, DecidableEq

/-- `extendEnv`: extend every binding of the environment that is a Durable
Object namespace (detected by its `idFromName` function); leave the rest
alone.  The environment is modelled by its list of binding values. -/
def extendEnv (env : List EnvValue) : List EnvValue :=
  env.map fun v =>
    match v with
    | EnvValue.namespaceVal slot => EnvValue.namespaceVal (extendNamespace slot)
    | EnvValue.otherVal => EnvValue.otherVal

/-! ## Transport environments used by the retry claims -/

/-- A transport that rejects every attempt with the same error message. -/
def sendAlwaysErr (msg : String) : Nat → FetchOutcome :=
  fun _ => FetchOutcome.err msg

/-- A transport that rejects the first `k` attempts with `msg` and then
serves the response `r`. -/
def sendFailThen (k : Nat) (msg : String) (r : Resp) : Nat → FetchOutcome :=
  fun n => if n < k then FetchOutcome.err msg else FetchOutcome.ok r

/-- A raw transport response a target method may return: a 201 status, one
custom header and a non-JSON text body. -/
def rawResp : Resp :=
  { status := 201, headers := [("X-Foo", "bar")], body := Body.textBody "hello" }

/-- A target object whose method `raw` returns `rawResp` directly. -/
def rawApi : ApiObject where
  methods := fun p => if p = "raw" then some (fun _ => MethodResult.response rawResp) else none
  fetchImpl := none

/-! ## The class-style variant: `DurableAPI` -/

/-- A subclass of `DurableAPI`, seen through the members its dispatcher
consults: the callable methods of the instance, and the optional
`handleFetch` override (`none` means the base default is in effect). -/
structure DurableAPIClass where
  methods : String → Option (List Json → MethodResult)
  handleFetchImpl : Option (Req → Resp)

/-- The base `handleFetch`: a fixed 500 response whose body is the JSON
text `\x7b"status":500,"error":"Durable Object cannot handle request"\x7d`
with a JSON content type. -/
def defaultHandleFetch : Req → Resp := fun _ =>
  { status := 500
    headers := [("Content-Type", "application/json")]
    body := Body.jsonBody (Json.obj
      [("status", Json.num 500), ("error", Json.str "Durable Object cannot handle request")]) }

/-- `this.handleFetch`: the override when the subclass defines one, else
the base default. -/
def classHandleFetch (cls : DurableAPIClass) : Req → Resp :=
  cls.handleFetchImpl.getD defaultHandleFetch

/-- Member lookup and invocation inside the class router: `this.fetch` is
always a function (the base class defines it), and for `prop === 'fetch'`
the router calls `this.handleFetch(request)`; any other callable member is
invoked with the decoded arguments spread positionally. -/
def classInvokeMember (cls : DurableAPIClass) (req : Req) (prop : String)
    (content : List Json) : Option MethodResult :=
  if prop = "fetch" then
    some (MethodResult.response (classHandleFetch cls req))
  else
    (cls.methods prop).map (fun f => f content)

/-- The `POST /:prop` handler of `durableAPIRouter` with its `.catch`
wrapper, exactly parallel to `routerHandle`. -/
def classRouterHandle (cls : DurableAPIClass) (req : Req) : Resp :=
  let prop := routerProp req
  let content := contentOf req.body
  match classInvokeMember cls req prop content with
  | none =>
      errorResponse 500 ("Durable Object does not contain method " ++ prop ++ "()")
  | some (MethodResult.thrown status msg) =>
      errorResponse (status.getD 500) msg
  | some (MethodResult.response r) =>
      { r with headers := setHeader r.headers "X-Direct-Response" "true" }
  | some (MethodResult.value v) =>
      createResponse v

/-- `DurableAPI.fetch`: route reserved-authority requests through the
class router, hand everything else to `this.handleFetch`. -/
def classFetch (cls : DurableAPIClass) (req : Req) : Resp :=
  if strLead req.url urlBase then
    classRouterHandle cls req
  else
    classHandleFetch cls req

/-- An incoming request that does not target the reserved authority (for
example a websocket upgrade), used to exercise the non-RPC boundary. -/
def nonRpcReq : Req :=
  { url := "wss://example.com/socket"
    method := "GET"
    headers := [("Upgrade", "websocket")]
    body := Body.unreadable }

/-- A bare `DurableAPI` subclass: no extra methods, no `handleFetch`
override. -/
def bareClass : DurableAPIClass :=
  { methods := fun _ => none, handleFetchImpl := none }

/-! ## Supporting lemmas -/

theorem charsLead_append (p t : List Char) : charsLead p (p ++ t) = true := by
  induction p with
  | nil => rfl
  | cons c cs ih => simp [charsLead, ih]

theorem strLead_append (a b : String) : strLead (a ++ b) a = true := by
  show charsLead a.data (a ++ b).data = true
  rw [String.data_append]
  exact charsLead_append _ _

theorem routerProp_createRequest (prop : String) (args : List Json) :
    routerProp (createRequest prop args) = prop := by
  show String.mk (((urlBase ++ prop : String)).data.drop urlBase.data.length) = prop
  rw [String.data_append, List.drop_left]

theorem contentOf_createRequest (prop : String) (args : List Json) :
    contentOf (createRequest prop args).body = args := rfl

theorem setHeader_cons_ne (kv : String × String) (hs : HeaderList) (n v : String)
    (h : (kv.1 == n) = false) :
    setHeader (kv :: hs) n v = kv :: setHeader hs n v := by
  have hne : kv.1 ≠ n := by simpa using h
  by_cases hc : (hs.find? (fun kv => kv.1 == n)).isSome = true <;>
    simp [setHeader, List.find?_cons, h, hc, hne]

theorem getHeader_setHeader (hs : HeaderList) (n v : String) :
    getHeader (setHeader hs n v) n = some v := by
  induction hs with
  | nil => simp [getHeader, setHeader, List.find?]
  | cons kv tl ih =>
    by_cases h : (kv.1 == n) = true
    · have he : kv.1 = n := by simpa using h
      have hs1 : setHeader (kv :: tl) n v =
          (n, v) :: tl.map (fun kv => if kv.1 == n then (n, v) else kv) := by
        simp [setHeader, List.find?_cons, h, he]
      rw [hs1]
      simp [getHeader, List.find?_cons]
    · rw [setHeader_cons_ne kv tl n v (by simpa using h)]
      simpa [getHeader, List.find?_cons, h] using ih

theorem getHeader_eq_none_iff (hs : HeaderList) (n : String) :
    getHeader hs n = none ↔ hs.find? (fun kv => kv.1 == n) = none := by
  unfold getHeader
  cases hs.find? (fun kv => kv.1 == n) <;> simp

theorem deleteHeader_setHeader_of_absent (hs : HeaderList) (n v : String)
    (h : getHeader hs n = none) :
    deleteHeader (setHeader hs n v) n = hs := by
  have hf : hs.find? (fun kv => kv.1 == n) = none := (getHeader_eq_none_iff hs n).mp h
  have hall := List.find?_eq_none.mp hf
  unfold setHeader
  rw [hf]
  simp only [Option.isSome_none, Bool.false_eq_true, if_false]
  unfold deleteHeader
  rw [List.filter_append]
  have h1 : List.filter (fun kv => kv.1 != n) [(n, v)] = [] := by simp
  have h2 : List.filter (fun kv => kv.1 != n) hs = hs := by
    apply List.filter_eq_self.mpr
    intro kv hkv
    simpa using hall kv hkv
  rw [h1, h2, List.append_nil]

theorem shouldRetry_le (e : String) (n : Nat) (h : shouldRetry e n = true) :
    n ≤ maxRetries := by
  unfold shouldRetry at h
  by_cases hn : n > maxRetries
  · rw [if_pos hn] at h; exact absurd h (by simp)
  · omega

/-- The fuel parameter of `stubFetchAux` is inert: any two fuel values
larger than the attempts the retry ceiling permits from the current
counter compute the same trace, so `stubFetchTrace` (13 units of fuel,
counter 0) is exactly the unbounded JS recursion of `stubFetch`. -/
theorem stubFetchAux_fuel (send : Nat → FetchOutcome) :
    ∀ fuel fuel' retries, 12 - retries < fuel → 12 - retries < fuel' →
      stubFetchAux send fuel retries = stubFetchAux send fuel' retries := by
  intro fuel
  induction fuel with
  | zero => intro fuel' retries h _; omega
  | succ fuel ih =>
    intro fuel' retries h h'
    cases fuel' with
    | zero => omega
    | succ fuel' =>
      unfold stubFetchAux
      cases send retries with
      | ok r => rfl
      | err msg =>
        cases hsr : shouldRetry msg retries with
        | false => simp [hsr]
        | true =>
          have hle : retries ≤ maxRetries := shouldRetry_le _ _ hsr
          have hmr : maxRetries = 10 := rfl
          simp only [hsr, if_true]
          rw [ih fuel' (retries + 1) (by omega) (by omega)]

theorem stubFetchAux_attempts_le (send : Nat → FetchOutcome) :
    ∀ fuel retries, (stubFetchAux send fuel retries).attempts ≤ max (12 - retries) 1 := by
  intro fuel
  induction fuel with
  | zero => intro retries; simp [stubFetchAux]
  | succ fuel ih =>
    intro retries
    unfold stubFetchAux
    cases send retries with
    | ok r => simp
    | err msg =>
      cases hsr : shouldRetry msg retries with
      | false => simp [hsr]
      | true =>
        have hle : retries ≤ maxRetries := shouldRetry_le _ _ hsr
        have hmr : maxRetries = 10 := rfl
        have ih1 := ih (retries + 1)
        simp only [hsr, if_true]
        have h1 : max (12 - (retries + 1)) 1 = 11 - retries := by omega
        rw [h1] at ih1
        have h2 : (11 - retries) + 1 ≤ max (12 - retries) 1 := by omega
        omega

theorem stubFetchTrace_attempts_le (send : Nat → FetchOutcome) :
    (stubFetchTrace send).attempts ≤ 12 := by
  have h := stubFetchAux_attempts_le send 13 0
  simpa using h

theorem stubFetchAux_sendFailThen (msg : String) (r : Resp) (ht : retryOnTest msg = true)
    (k : Nat) (hk : k ≤ 11) :
    ∀ fuel retries, retries ≤ k → k - retries < fuel →
      stubFetchAux (sendFailThen k msg r) fuel retries =
        { outcome := CallOutcome.resolved (transformResponse r)
          attempts := k - retries + 1
          delays := (List.range (k - retries)).map (fun i => 2 ^ (retries + i) * 10) } := by
  intro fuel
  induction fuel with
  | zero => intro retries _ hf; omega
  | succ fuel ih =>
    intro retries hrk hfuel
    by_cases hlt : retries < k
    · have hsend : sendFailThen k msg r retries = FetchOutcome.err msg := by
        simp [sendFailThen, hlt]
      have hsr : shouldRetry msg retries = true := by
        unfold shouldRetry
        have hmr : maxRetries = 10 := rfl
        have : ¬ retries > maxRetries := by omega
        rw [if_neg this]
        exact ht
      unfold stubFetchAux
      rw [hsend]
      simp only [hsr, if_true]
      rw [ih (retries + 1) (by omega) (by omega)]
      have hattempts : k - (retries + 1) + 1 + 1 = k - retries + 1 := by omega
      have hdelays :
          (2 ^ retries * 10) ::
              (List.range (k - (retries + 1))).map (fun i => 2 ^ (retries + 1 + i) * 10) =
            (List.range (k - retries)).map (fun i => 2 ^ (retries + i) * 10) := by
        have hkr : k - retries = (k - (retries + 1)) + 1 := by omega
        have hfun : ((fun i => 2 ^ (retries + i) * 10) ∘ Nat.succ) =
            (fun i => 2 ^ (retries + 1 + i) * 10) := by
          funext i
          have hadd : retries + Nat.succ i = retries + 1 + i := by omega
          simp [Function.comp, hadd]
        rw [hkr, List.range_succ_eq_map, List.map_cons, List.map_map, hfun]
        simp
      simp [hattempts, hdelays]
    · have heq : retries = k := by omega
      have hsend : sendFailThen k msg r retries = FetchOutcome.ok r := by
        simp [sendFailThen, heq]
      unfold stubFetchAux
      rw [hsend]
      simp [heq, Nat.sub_self]

theorem durableFetch_createRequest (api : ApiObject) (prop : String) (args : List Json) :
    durableFetch api (createRequest prop args) = routerHandle api (createRequest prop args) := by
  unfold durableFetch
  have hlead : strLead (createRequest prop args).url urlBase = true := strLead_append urlBase prop
  rw [hlead]
  simp

theorem routerHandle_createRequest (api : ApiObject) (prop : String) (args : List Json) :
    routerHandle api (createRequest prop args) =
      match invokeMember api (createRequest prop args) prop args with
      | none =>
          errorResponse 500 ("Durable Object does not contain method " ++ prop ++ "()")
      | some (MethodResult.thrown status msg) =>
          errorResponse (status.getD 500) msg
      | some (MethodResult.response r) =>
          { r with headers := setHeader r.headers "X-Direct-Response" "true" }
      | some (MethodResult.value v) =>
          createResponse v := by
  unfold routerHandle
  rw [routerProp_createRequest, contentOf_createRequest]

theorem stubFetchTrace_const_ok (r : Resp) (send : Nat → FetchOutcome)
    (h : send 0 = FetchOutcome.ok r) :
    stubFetchTrace send =
      { outcome := CallOutcome.resolved (transformResponse r), attempts := 1, delays := [] } := by
  show stubFetchAux send (12 + 1) 0 = _
  unfold stubFetchAux
  rw [h]

theorem stubFetchTrace_first_err (send : Nat → FetchOutcome) (msg : String)
    (h : send 0 = FetchOutcome.err msg) (hsr : shouldRetry msg 0 = false) :
    stubFetchTrace send =
      { outcome := CallOutcome.rejected msg, attempts := 1, delays := [] } := by
  show stubFetchAux send (12 + 1) 0 = _
  unfold stubFetchAux
  rw [h]
  simp [hsr]

/-! ## The claims -/

/-- C1: End-to-end RPC correctness — for a durable object whose API has a
method `add(a, b) => a + b`, invoking `add(3, 4)` on a stub obtained
through the extended namespace get (encode the request, dispatch through
the `createDurable` router, invoke the method with the decoded arguments
spread positionally, encode the return value, decode the response on the
client) yields a call that resolves to the value 7, in one attempt with no
delay. -/
theorem C1_add_rpc_roundtrip :
    clientCall addApi "add" [Json.num 3, Json.num 4] =
      { outcome := CallOutcome.resolved (Decoded.value (Json.num 7))
        attempts := 1
        delays := [] } := rfl

/-- C2 counterexample: the claim states that a string of any length other
than 64 is derived as a name via `idFromName`, but the empty string (of
length 0, hence not 64) is falsy in JavaScript, so `if (!id)` routes it to
`newUniqueId` instead of `idFromName`. -/
theorem C2_counterexample :
    resolveId { counter := 0 } (IdArg.str "") =
      (DOId.unique 0, { counter := 1 }) ∧
    DOId.unique 0 ≠ DOId.fromName "" :=
  ⟨rfl, by decide⟩

/-- C2 (amended): identity resolution branching for every call to the
wrapped get — (i) if the id argument is absent, a freshly generated unique
identity is used and two no-argument calls never yield the same identity;
(ii) a string of length exactly 64 is parsed directly via `idFromString`;
(iii) a NON-EMPTY string of any other length is derived as a name via
`idFromName`, while the empty string — being falsy — is treated exactly
like an absent argument and resolved to a fresh unique identity; (iv) a
non-string identity object is passed through unchanged. -/
theorem C2_identity_resolution :
    (∀ st : NamespaceState,
      (resolveId st IdArg.absent).1 ≠
        (resolveId (resolveId st IdArg.absent).2 IdArg.absent).1) ∧
    (∀ (st : NamespaceState) (s : String), s.length = 64 →
      resolveId st (IdArg.str s) = (DOId.fromString s, st)) ∧
    (∀ (st : NamespaceState) (s : String), s ≠ "" → s.length ≠ 64 →
      resolveId st (IdArg.str s) = (DOId.fromName s, st)) ∧
    (∀ (st : NamespaceState) (s : String), s = "" →
      resolveId st (IdArg.str s) = resolveId st IdArg.absent) ∧
    (∀ (st : NamespaceState) (i : DOId),
      resolveId st (IdArg.objId i) = (i, st)) := by
  refine ⟨?_, ?_, ?_, ?_, ?_⟩
  · intro st
    simp [resolveId, idArgTruthy]
  · intro st s hlen
    have hne : s ≠ "" := by
      intro h
      rw [h] at hlen
      simp at hlen
    have hemp : s.isEmpty = false := by
      cases hi : s.isEmpty
      · rfl
      · exact absurd ((String.isEmpty_iff s).mp hi) hne
    simp [resolveId, idArgTruthy, hemp, hlen]
  · intro st s hne hlen
    have hemp : s.isEmpty = false := by
      cases hi : s.isEmpty
      · rfl
      · exact absurd ((String.isEmpty_iff s).mp hi) hne
    simp [resolveId, idArgTruthy, hemp, hlen]
  · intro st s h
    rw [h]
    rfl
  · intro st i
    simp [resolveId, idArgTruthy]

/-- C2 witness: the amended branching evaluated at concrete inputs — a
fresh-id pair, a 64-character canonical id, a short name, the empty
string, and an identity object. -/
theorem C2_identity_resolution_witness :
    (resolveId { counter := 5 } IdArg.absent).1 ≠
      (resolveId (resolveId { counter := 5 } IdArg.absent).2 IdArg.absent).1 ∧
    resolveId { counter := 5 }
        (IdArg.str "0123456789abcdef0123456789abcdef0123456789abcdef0123456789abcdef") =
      (DOId.fromString "0123456789abcdef0123456789abcdef0123456789abcdef0123456789abcdef",
        { counter := 5 }) ∧
    resolveId { counter := 5 } (IdArg.str "counter") =
      (DOId.fromName "counter", { counter := 5 }) ∧
    resolveId { counter := 5 } (IdArg.str "") = resolveId { counter := 5 } IdArg.absent ∧
    resolveId { counter := 5 } (IdArg.objId (DOId.unique 9)) =
      (DOId.unique 9, { counter := 5 }) :=
  ⟨C2_identity_resolution.1 _,
    C2_identity_resolution.2.1 _ _ (by decide),
    C2_identity_resolution.2.2.1 _ _ (by decide) (by decide),
    C2_identity_resolution.2.2.2.1 _ _ rfl,
    C2_identity_resolution.2.2.2.2 _ _⟩

/-- C3 counterexample: with a transport that rejects every attempt with a
known-transient phrase, the call makes 12 attempts before rejecting, not
the 11 total attempts the claim states. -/
theorem C3_counterexample :
    (stubFetchTrace (sendAlwaysErr "Network connection lost")).attempts = 12 ∧
    ¬ (stubFetchTrace (sendAlwaysErr "Network connection lost")).attempts = 11 :=
  ⟨rfl, by decide⟩

/-- C3 (amended): retry attempt ceiling — for every call, at most 12 total
attempts are made (1 initial plus up to 11 retries, because `stubFetch`
starts its counter at 0 and `shouldRetry` only refuses once the counter
exceeds `maxRetries` = 10); `shouldRetry` returns false for every counter
value beyond the maximum, and a call that keeps failing with a transient
error performs exactly 12 attempts and then rejects with the original
error. -/
theorem C3_attempt_ceiling :
    (∀ send : Nat → FetchOutcome, (stubFetchTrace send).attempts ≤ 12) ∧
    (∀ (e : String) (n : Nat), n > maxRetries → shouldRetry e n = false) ∧
    (stubFetchTrace (sendAlwaysErr "Network connection lost")).attempts = 12 ∧
    (stubFetchTrace (sendAlwaysErr "Network connection lost")).outcome =
      CallOutcome.rejected "Network connection lost" := by
  refine ⟨stubFetchTrace_attempts_le, ?_, rfl, rfl⟩
  intro e n hn
  unfold shouldRetry
  rw [if_pos hn]

/-- C3 witness: the ceiling facts applied at a concrete transport and a
concrete counter value past the maximum. -/
theorem C3_attempt_ceiling_witness :
    (stubFetchTrace (sendAlwaysErr "boring")).attempts ≤ 12 ∧
    shouldRetry "Network connection lost" 11 = false :=
  ⟨C3_attempt_ceiling.1 _, C3_attempt_ceiling.2.1 _ 11 (by decide)⟩

/-- C5 counterexample: a passthrough method returning a 201 response
reaches the caller as a raw response whose status is 200 — the rebuild
`new Response(response.body, \x7b ...response, headers \x7d)` spreads a
Response whose attributes are prototype accessors, so no own enumerable
property is copied and the new response takes the default status; the
claimed preservation of the status fails. -/
theorem C5_counterexample :
    rawResp.status = 201 ∧
    (clientCall rawApi "raw" []).outcome =
      CallOutcome.resolved (Decoded.raw
        { status := 200, headers := [("X-Foo", "bar")], body := Body.textBody "hello" }) ∧
    ¬ (200 : Nat) = 201 :=
  ⟨rfl, rfl, by decide⟩

/-- C5 (amended): raw-response passthrough round trip — for every invoked
method that returns a transport Response (whose headers do not already
carry the marker), the server attaches `X-Direct-Response: true` and
returns the response as-is; the client, seeing the marker, returns the raw
response object (the body is NOT JSON-decoded) with the body and all other
headers preserved and only the marker stripped — but the status is NOT
preserved: the client rebuild resets it to the default 200. -/
theorem C5_passthrough (api : ApiObject) (prop : String) (args : List Json) (r : Resp)
    (f : List Json → MethodResult)
    (hp : prop ≠ "fetch")
    (hm : api.methods prop = some f)
    (hr : f args = MethodResult.response r)
    (hmk : getHeader r.headers "X-Direct-Response" = none) :
    clientCall api prop args =
      { outcome := CallOutcome.resolved (Decoded.raw
          { status := 200, headers := r.headers, body := r.body })
        attempts := 1
        delays := [] } := by
  have h1 : invokeMember api (createRequest prop args) prop args =
      some (MethodResult.response r) := by
    unfold invokeMember
    rw [if_neg hp, hm]
    simp [hr]
  have hd : durableFetch api (createRequest prop args) =
      { r with headers := setHeader r.headers "X-Direct-Response" "true" } := by
    rw [durableFetch_createRequest, routerHandle_createRequest, h1]
  unfold clientCall
  rw [stubFetchTrace_const_ok (durableFetch api (createRequest prop args)) _ rfl, hd]
  have ht :
      transformResponse { r with headers := setHeader r.headers "X-Direct-Response" "true" } =
        Decoded.raw { status := 200, headers := r.headers, body := r.body } := by
    unfold transformResponse
    rw [getHeader_setHeader]
    simp [deleteHeader_setHeader_of_absent r.headers _ _ hmk]
  rw [ht]

/-- C5 witness: the amended passthrough behavior at the concrete `raw`
method returning the 201 response `rawResp`. -/
theorem C5_passthrough_witness :
    clientCall rawApi "raw" [] =
      { outcome := CallOutcome.resolved (Decoded.raw
          { status := 200, headers := [("X-Foo", "bar")], body := Body.textBody "hello" })
        attempts := 1
        delays := [] } :=
  C5_passthrough rawApi "raw" [] rawResp (fun _ => MethodResult.response rawResp)
    (by decide) rfl rfl rfl

/-- C6: retry eligibility — a failed send is retried exactly when the
stringified error contains one of the four fixed known-transient phrases
AND the retry counter has not passed the ceiling; a transport failure
whose message matches no phrase rejects immediately with the original
error: one attempt, zero retries, no delay. -/
theorem C6_retry_eligibility :
    (∀ (err : String) (n : Nat),
      shouldRetry err n =
        (decide (n ≤ maxRetries) &&
          (strHas err "Network connection lost" ||
           strHas err "Cannot resolve Durable Object due to transient issue on remote node" ||
           strHas err "Durable Object reset because its code was updated" ||
           strHas err "The Durable Object\x27s code has been updated"))) ∧
    (∀ err : String, retryOnTest err = false →
      stubFetchTrace (sendAlwaysErr err) =
        { outcome := CallOutcome.rejected err, attempts := 1, delays := [] }) := by
  constructor
  · intro err n
    unfold shouldRetry retryOnTest
    by_cases hn : n > maxRetries
    · rw [if_pos hn]
      have hdec : decide (n ≤ maxRetries) = false := by
        simp only [decide_eq_false_iff_not]
        omega
      rw [hdec]
      simp
    · rw [if_neg hn]
      have hdec : decide (n ≤ maxRetries) = true := by
        simp only [decide_eq_true_eq]
        omega
      rw [hdec]
      simp [retryOnTest]
  · intro err h
    apply stubFetchTrace_first_err _ _ rfl
    unfold shouldRetry
    rw [if_neg (by simp [maxRetries])]
    exact h

/-- C6 witness: eligibility evaluated at a transient phrase within the
ceiling, and the immediate rejection of a non-matching error. -/
theorem C6_retry_eligibility_witness :
    shouldRetry "Network connection lost" 3 =
      (decide (3 ≤ maxRetries) &&
        (strHas "Network connection lost" "Network connection lost" ||
         strHas "Network connection lost"
           "Cannot resolve Durable Object due to transient issue on remote node" ||
         strHas "Network connection lost" "Durable Object reset because its code was updated" ||
         strHas "Network connection lost" "The Durable Object\x27s code has been updated")) ∧
    stubFetchTrace (sendAlwaysErr "boring error") =
      { outcome := CallOutcome.rejected "boring error", attempts := 1, delays := [] } :=
  ⟨C6_retry_eligibility.1 "Network connection lost" 3,
    C6_retry_eligibility.2 "boring error" (by decide)⟩

/-- C7 counterexample: the delays actually applied before the first two
retries are 10ms and 20ms — not the 20ms and 40ms the claimed sequence
"20ms, 40ms, 80ms, ..." begins with. -/
theorem C7_counterexample :
    (stubFetchTrace
        (sendFailThen 2 "Network connection lost" (jsonResponse (Json.num 1)))).delays =
      [10, 20] ∧
    ¬ (stubFetchTrace
        (sendFailThen 2 "Network connection lost" (jsonResponse (Json.num 1)))).delays =
      [20, 40] :=
  ⟨rfl, by decide⟩

/-- C7 (amended): backoff schedule — the delay applied before retry
attempt n (0-indexed) equals 2^n * 10 time units, yielding the sequence
10ms, 20ms, 40ms, …, applied sequentially, so a call failing twice then
succeeding waits 10 + 20 time units in total before success. -/
theorem C7_backoff_schedule (msg : String) (r : Resp) (k : Nat)
    (hk : k ≤ 11) (ht : retryOnTest msg = true) :
    (stubFetchTrace (sendFailThen k msg r)).delays =
      (List.range k).map (fun n => 2 ^ n * 10) ∧
    (stubFetchTrace (sendFailThen k msg r)).outcome =
      CallOutcome.resolved (transformResponse r) ∧
    (stubFetchTrace (sendFailThen 2 msg r)).delays.sum = 10 + 20 := by
  have h := stubFetchAux_sendFailThen msg r ht k hk 13 0 (by omega) (by omega)
  have h2 := stubFetchAux_sendFailThen msg r ht 2 (by omega) 13 0 (by omega) (by omega)
  unfold stubFetchTrace
  rw [h, h2]
  refine ⟨?_, rfl, ?_⟩
  · simp
  · rfl

/-- C7 witness: the amended backoff schedule at a transport that fails
twice with a transient phrase and then succeeds. -/
theorem C7_backoff_schedule_witness :
    (stubFetchTrace
        (sendFailThen 2 "Network connection lost" (jsonResponse (Json.num 1)))).delays =
      (List.range 2).map (fun n => 2 ^ n * 10) ∧
    (stubFetchTrace
        (sendFailThen 2 "Network connection lost" (jsonResponse (Json.num 1)))).outcome =
      CallOutcome.resolved (transformResponse (jsonResponse (Json.num 1))) ∧
    (stubFetchTrace
        (sendFailThen 2 "Network connection lost" (jsonResponse (Json.num 1)))).delays.sum =
      10 + 20 :=
  C7_backoff_schedule "Network connection lost" (jsonResponse (Json.num 1)) 2
    (by decide) (by decide)

/-- C8: client decode total fallback chain — for every non-passthrough
transport response, the decode step returns the JSON-parsed value when the
body text parses as JSON, the raw body text when parsing fails, and the
response object itself when the body cannot be read at all;
`transformResponse` is a total function on responses, so it never throws
for a well-formed, reachable response. -/
theorem C8_decode_fallback (r : Resp)
    (h : ¬ getHeader r.headers "X-Direct-Response" = some "true") :
    (∀ v, r.body = Body.jsonBody v → transformResponse r = Decoded.value v) ∧
    (∀ s, r.body = Body.textBody s → transformResponse r = Decoded.text s) ∧
    (r.body = Body.unreadable → transformResponse r = Decoded.raw r) := by
  unfold transformResponse
  rw [if_neg h]
  refine ⟨?_, ?_, ?_⟩
  · intro v hb
    rw [hb]
  · intro s hb
    rw [hb]
  · intro hb
    rw [hb]

/-- C8 witness: the three rungs of the fallback chain at concrete
responses — a JSON body, a non-JSON text body, and an unreadable body. -/
theorem C8_decode_fallback_witness :
    transformResponse (jsonResponse (Json.num 5)) = Decoded.value (Json.num 5) ∧
    transformResponse { status := 200, headers := [], body := Body.textBody "not json" } =
      Decoded.text "not json" ∧
    transformResponse { status := 200, headers := [], body := Body.unreadable } =
      Decoded.raw { status := 200, headers := [], body := Body.unreadable } :=
  ⟨(C8_decode_fallback (jsonResponse (Json.num 5)) (by decide)).1 (Json.num 5) rfl,
    (C8_decode_fallback { status := 200, headers := [], body := Body.textBody "not json" }
      (by decide)).2.1 "not json" rfl,
    (C8_decode_fallback { status := 200, headers := [], body := Body.unreadable }
      (by decide)).2.2 rfl⟩

/-- C9: non-RPC boundary — every incoming request whose URL does not begin
with the reserved internal authority bypasses the RPC router and is
forwarded unchanged to the native fetch handler of the object
(`createDurable` variant: the `fetch` member of the wrapped object; class
variant: `handleFetch`); when none is defined, the fixed 500 "cannot
handle" error response (respectively the base-class default response) is
returned instead. -/
theorem C9_non_rpc_boundary (api : ApiObject) (cls : DurableAPIClass) (req : Req)
    (h : strLead req.url urlBase = false) :
    (∀ f, api.fetchImpl = some f → durableFetch api req = f req) ∧
    (api.fetchImpl = none →
      durableFetch api req = errorResponse 500 "Durable Object cannot handle request") ∧
    classFetch cls req = classHandleFetch cls req ∧
    (cls.handleFetchImpl = none → classFetch cls req = defaultHandleFetch req) := by
  have hcond : ¬ strLead req.url urlBase = true := by simp [h]
  refine ⟨?_, ?_, ?_, ?_⟩
  · intro f hf
    unfold durableFetch
    rw [if_neg hcond, hf]
  · intro hf
    unfold durableFetch
    rw [if_neg hcond, hf]
  · unfold classFetch
    rw [if_neg hcond]
  · intro hf
    unfold classFetch classHandleFetch
    rw [if_neg hcond, hf]
    rfl

/-- C9 witness: the boundary at a concrete websocket-upgrade request
against the `add`-only object (no `fetch` member) and the bare class (no
`handleFetch` override). -/
theorem C9_non_rpc_boundary_witness :
    durableFetch addApi nonRpcReq =
      errorResponse 500 "Durable Object cannot handle request" ∧
    classFetch bareClass nonRpcReq = defaultHandleFetch nonRpcReq :=
  ⟨(C9_non_rpc_boundary addApi bareClass nonRpcReq (by decide)).2.1 rfl,
    (C9_non_rpc_boundary addApi bareClass nonRpcReq (by decide)).2.2.2 rfl⟩

/-- C10: extending the environment is idempotent — extending a namespace
whose `get` already carries the `extended` flag changes nothing, so
`extendEnv`/`extendNamespace` applied twice equal themselves applied once,
`get` always carries the flag afterwards, and a namespace starting
unextended ends with its `get` wrapped exactly once no matter how many
times it is extended. -/
theorem C10_extend_idempotent :
    (∀ slot : NamespaceGetSlot,
      extendNamespace (extendNamespace slot) = extendNamespace slot) ∧
    (∀ env : List EnvValue, extendEnv (extendEnv env) = extendEnv env) ∧
    (∀ slot : NamespaceGetSlot, (extendNamespace slot).extended = true) ∧
    (∀ slot : NamespaceGetSlot, slot.extended = false →
      extendNamespace (extendNamespace slot) =
        { fn := GetFn.wrapped slot.fn, extended := true }) := by
  have h1 : ∀ slot : NamespaceGetSlot,
      extendNamespace (extendNamespace slot) = extendNamespace slot := by
    intro slot
    unfold extendNamespace
    by_cases h : slot.extended <;> simp [h]
  refine ⟨h1, ?_, ?_, ?_⟩
  · intro env
    induction env with
    | nil => rfl
    | cons v tl ih =>
      cases v with
      | namespaceVal slot =>
        simpa [extendEnv, h1 slot] using ih
      | otherVal =>
        simpa [extendEnv] using ih
  · intro slot
    unfold extendNamespace
    by_cases h : slot.extended <;> simp [h]
  · intro slot h
    unfold extendNamespace
    simp [h]

/-- C10 witness: idempotence at a concrete unextended namespace and a
concrete environment, and the single wrapping of its `get`. -/
theorem C10_extend_idempotent_witness :
    extendNamespace (extendNamespace { fn := GetFn.native, extended := false }) =
      extendNamespace { fn := GetFn.native, extended := false } ∧
    extendEnv (extendEnv
        [EnvValue.namespaceVal { fn := GetFn.native, extended := false },
         EnvValue.otherVal]) =
      extendEnv
        [EnvValue.namespaceVal { fn := GetFn.native, extended := false },
         EnvValue.otherVal] ∧
    extendNamespace (extendNamespace { fn := GetFn.native, extended := false }) =
      { fn := GetFn.wrapped GetFn.native, extended := true } :=
  ⟨C10_extend_idempotent.1 _, C10_extend_idempotent.2.1 _,
    C10_extend_idempotent.2.2.2 _ rfl⟩

end DurableApis
